import Mathlib

/-!
Verification of the Maritime Vessel safety-system harness.

The definitions below are a shallow embedding of the Python sources:
* `src/Simulation_Models/central_alarm_interface.py` (`CentralAlarmInterface`),
* `src/Simulation_Models/diagnostic_simulation.py` (`DiagnosticsSimulator`),
* the mock simulator classes of
  `src/Automated_Testing_Framework/Additional_Test_Cases/interface-tests.py`
  (`FireDetectionSimulator`, `EmergencyShutdownSimulator`, `BilgeAlarmSimulator`).

Python dicts are modelled as association lists `List (String × _)` preserving
insertion (= registration) order; numeric sensor values are modelled as exact
rationals `ℚ`; fallible operations return `Option`/`Except`.
-/

set_option autoImplicit false

namespace Maritime

/-- The `{"visual": bool, "audible": bool}` alarm dict of the simulators. -/
structure AlarmStatus where
  visual : Bool
  audible : Bool
  deriving DecidableEq, Repr

/-- A subsystem as seen by `CentralAlarmInterface.check_alarms`, which probes two
duck-typed capabilities via `hasattr`:
* `get_alarm_status` : present iff the field is `some`, returning the status dict;
* `alarm_interface` : present iff the field is `some`; the `Bool` is the value of
  `bool(system.alarm_interface.get("signal_sent"))`. -/
structure Subsystem where
  get_alarm_status : Option AlarmStatus
  alarm_interface : Option Bool
  deriving DecidableEq, Repr

/-- Association-list lookup, modelling `d[k]` / `d.get(k)` on a Python dict
(first entry wins; a dict has unique keys). -/
def assocGet {α : Type} : List (String × α) → String → Option α
  | [], _ => none
  | (k, v) :: rest, key => if k = key then some v else assocGet rest key

/-- Association-list update `d[k] = v` on a Python dict: every entry whose key
matches is given the new value, the key order is unchanged. -/
def assocSet {α : Type} (m : List (String × α)) (key : String) (v : α) :
    List (String × α) :=
  m.map (fun p => if p.1 = key then (p.1, v) else p)

/-- Embeds `self.maintenance_mode.get(name, False)` from `check_alarms`. -/
def maintGet (m : List (String × Bool)) (key : String) : Bool :=
  (assocGet m key).getD false

/-- The `alarm_active` determination of `check_alarms` (lines 44-51 of
`central_alarm_interface.py`): `get_alarm_status` takes precedence when present
(visual OR audible); otherwise the `alarm_interface` signal-sent flag; a
subsystem with neither capability is inactive. -/
def alarmActive (s : Subsystem) : Bool :=
  match s.get_alarm_status with
  | some status => status.visual || status.audible
  | none =>
    match s.alarm_interface with
    | some signal => signal
    | none => false

/-- The result dict of `check_alarms`. -/
structure CheckResult where
  overall_alarm : Bool
  triggered_systems : List String
  suppressed_alarms : List String
  deriving DecidableEq, Repr

/-- The loop of `check_alarms` (lines 42-60): iterate over the registered
subsystems in order; an active subsystem is appended to `suppressed_alarms`
when its maintenance flag is set, otherwise to `triggered_systems` while also
setting `overall_alarm`; an inactive subsystem is skipped. -/
def checkAlarmsList (m : List (String × Bool)) :
    List (String × Subsystem) → CheckResult
  | [] => ⟨false, [], []⟩
  | (name, system) :: rest =>
    let r := checkAlarmsList m rest
    if alarmActive system then
      if maintGet m name then
        ⟨r.overall_alarm, r.triggered_systems, name :: r.suppressed_alarms⟩
      else
        ⟨true, name :: r.triggered_systems, r.suppressed_alarms⟩
    else r

/-- State of a `CentralAlarmInterface`: the registered subsystems and the
per-subsystem maintenance flags (initialised to `False` for every registered
name by `__init__`). -/
structure CAIState where
  systems : List (String × Subsystem)
  maintenance_mode : List (String × Bool)
  deriving DecidableEq, Repr

/-- Embeds `CentralAlarmInterface.__init__(systems)`. -/
def CAIState.init (systems : List (String × Subsystem)) : CAIState :=
  ⟨systems, systems.map (fun p => (p.1, false))⟩

/-- Embeds `CentralAlarmInterface.check_alarms` (result only; the method performs no
writes). -/
def checkAlarms (st : CAIState) : CheckResult :=
  checkAlarmsList st.maintenance_mode st.systems

/-- Embeds `CentralAlarmInterface.check_alarms` as a state transformer.  Every
statement of the method body is a read (of `self.systems`,
`self.maintenance_mode` and the subsystem status), so the embedded operation
returns the interface state unchanged. -/
def checkAlarmsOp (st : CAIState) : CheckResult × CAIState :=
  (checkAlarmsList st.maintenance_mode st.systems, st)

/-- Embeds `CentralAlarmInterface.set_maintenance_mode(system_name, mode)` (lines
20-31): update the flag and return `True` when the name is registered,
otherwise return `False` with no state change. -/
def setMaintenanceMode (st : CAIState) (system_name : String) (mode : Bool) :
    Bool × CAIState :=
  if (assocGet st.maintenance_mode system_name).isSome then
    (true, { st with
      maintenance_mode := assocSet st.maintenance_mode system_name mode })
  else
    (false, st)

/-! ### Characterization lemmas for `check_alarms` -/

theorem checkAlarmsList_triggered (m : List (String × Bool)) :
    ∀ l : List (String × Subsystem),
      (checkAlarmsList m l).triggered_systems =
        (l.filter (fun p => alarmActive p.2 && !maintGet m p.1)).map Prod.fst
  | [] => rfl
  | (name, system) :: rest => by
    have ih := checkAlarmsList_triggered m rest
    by_cases ha : alarmActive system
    · by_cases hm : maintGet m name
      · simp [checkAlarmsList, ha, hm, List.filter, ih]
      · simp [checkAlarmsList, ha, hm, List.filter, ih]
    · simp [checkAlarmsList, ha, List.filter, ih]

theorem checkAlarmsList_suppressed (m : List (String × Bool)) :
    ∀ l : List (String × Subsystem),
      (checkAlarmsList m l).suppressed_alarms =
        (l.filter (fun p => alarmActive p.2 && maintGet m p.1)).map Prod.fst
  | [] => rfl
  | (name, system) :: rest => by
    have ih := checkAlarmsList_suppressed m rest
    by_cases ha : alarmActive system
    · by_cases hm : maintGet m name
      · simp [checkAlarmsList, ha, hm, List.filter, ih]
      · simp [checkAlarmsList, ha, hm, List.filter, ih]
    · simp [checkAlarmsList, ha, List.filter, ih]

theorem checkAlarmsList_overall (m : List (String × Bool)) :
    ∀ l : List (String × Subsystem),
      (checkAlarmsList m l).overall_alarm =
        l.any (fun p => alarmActive p.2 && !maintGet m p.1)
  | [] => rfl
  | (name, system) :: rest => by
    have ih := checkAlarmsList_overall m rest
    by_cases ha : alarmActive system
    · by_cases hm : maintGet m name
      · simp [checkAlarmsList, ha, hm, ih]
      · simp [checkAlarmsList, ha, hm]
    · simp [checkAlarmsList, ha, ih]

theorem mem_map_fst_filter {p : String × Subsystem → Bool}
    {l : List (String × Subsystem)} {name : String} :
    name ∈ (l.filter p).map Prod.fst ↔
      ∃ s : Subsystem, (name, s) ∈ l ∧ p (name, s) = true := by
  constructor
  · intro h
    rcases List.mem_map.mp h with ⟨x, hx, hfst⟩
    rcases List.mem_filter.mp hx with ⟨hmem, hp⟩
    refine ⟨x.2, ?_, ?_⟩
    · rcases x with ⟨a, b⟩
      cases hfst
      exact hmem
    · rcases x with ⟨a, b⟩
      cases hfst
      exact hp
  · rintro ⟨s, hmem, hp⟩
    exact List.mem_map.mpr ⟨(name, s), List.mem_filter.mpr ⟨hmem, hp⟩, rfl⟩

/-- With distinct registered names (a Python dict has unique keys), an entry is
determined by its name. -/
theorem entry_unique {l : List (String × Subsystem)}
    (hnd : (l.map Prod.fst).Nodup) {name : String} {s t : Subsystem}
    (hs : (name, s) ∈ l) (ht : (name, t) ∈ l) : s = t := by
  induction l with
  | nil => cases hs
  | cons x rest ih =>
    obtain ⟨a, b⟩ := x
    simp only [List.map_cons, List.nodup_cons] at hnd
    obtain ⟨hx, hrest⟩ := hnd
    rcases List.mem_cons.mp hs with hs1 | hs1 <;>
      rcases List.mem_cons.mp ht with ht1 | ht1
    · cases hs1
      cases ht1
      rfl
    · cases hs1
      exact absurd (List.mem_map.mpr ⟨(name, t), ht1, rfl⟩) hx
    · cases ht1
      exact absurd (List.mem_map.mpr ⟨(name, s), hs1, rfl⟩) hx
    · exact ih hrest hs1 ht1

/-! ### Lemmas about `assocGet` / `assocSet` -/

theorem assocSet_cons {α : Type} (a : String) (b : α)
    (rest : List (String × α)) (key : String) (v : α) :
    assocSet ((a, b) :: rest) key v =
      (if a = key then (a, v) else (a, b)) :: assocSet rest key v := by
  by_cases hk : a = key <;> simp [assocSet, hk]

theorem assocGet_assocSet_self {α : Type} {m : List (String × α)} {key : String}
    (h : (assocGet m key).isSome) (v : α) :
    assocGet (assocSet m key v) key = some v := by
  induction m with
  | nil => simp [assocGet] at h
  | cons x rest ih =>
    obtain ⟨a, b⟩ := x
    rw [assocSet_cons]
    by_cases hk : a = key
    · rw [if_pos hk]
      simp [assocGet, hk]
    · rw [if_neg hk]
      simp only [assocGet, if_neg hk] at h ⊢
      exact ih h

theorem assocGet_assocSet_other {α : Type} (m : List (String × α))
    (key k : String) (v : α) (hne : k ≠ key) :
    assocGet (assocSet m key v) k = assocGet m k := by
  induction m with
  | nil => rfl
  | cons x rest ih =>
    obtain ⟨a, b⟩ := x
    rw [assocSet_cons]
    by_cases hk : a = key
    · have hak : a ≠ k := fun h => hne (h ▸ hk)
      rw [if_pos hk]
      simp only [assocGet, if_neg hak]
      exact ih
    · rw [if_neg hk]
      by_cases hak : a = k
      · simp [assocGet, hak]
      · simp only [assocGet, if_neg hak]
        exact ih

/-! ### Mock subsystem simulators (interface-tests.py fallback classes)

Decimal literals of the source (`25.0`, `0.3`, `150.0`, ...) are written as the
exact rationals they denote. -/

/-- One fire detector: `{"temp": float, "smoke": float}`. -/
structure FireSensor where
  temp : ℚ
  smoke : ℚ
  deriving DecidableEq, Repr

/-- Embeds `FireDetectionSimulator`. -/
structure FireSim where
  sensors : List (String × FireSensor)
  alarms : AlarmStatus
  power_status : String
  deriving DecidableEq, Repr

/-- Embeds `FireDetectionSimulator.__init__`: ten sensors at 25.0 degrees / 0.0 smoke. -/
def FireSim.init : FireSim :=
  { sensors := [("sensor_1", ⟨25, 0⟩), ("sensor_2", ⟨25, 0⟩),
                ("sensor_3", ⟨25, 0⟩), ("sensor_4", ⟨25, 0⟩),
                ("sensor_5", ⟨25, 0⟩), ("sensor_6", ⟨25, 0⟩),
                ("sensor_7", ⟨25, 0⟩), ("sensor_8", ⟨25, 0⟩),
                ("sensor_9", ⟨25, 0⟩), ("sensor_10", ⟨25, 0⟩)],
    alarms := ⟨false, false⟩,
    power_status := "main" }

/-- Embeds `FireDetectionSimulator.set_sensor_value(sensor_id, parameter, value)`.
Returns `True` and updates the field iff the sensor exists and the parameter
is one of its keys (`"temp"` or `"smoke"`). -/
def FireSim.set_sensor_value (f : FireSim) (sensor_id parameter : String)
    (value : ℚ) : Bool × FireSim :=
  match assocGet f.sensors sensor_id with
  | none => (false, f)
  | some _ =>
    if parameter = "temp" then
      (true, { f with sensors := (f.sensors.map
        (fun p => if p.1 = sensor_id then (p.1, { p.2 with temp := value })
                  else p)) })
    else if parameter = "smoke" then
      (true, { f with sensors := (f.sensors.map
        (fun p => if p.1 = sensor_id then (p.1, { p.2 with smoke := value })
                  else p)) })
    else (false, f)

/-- Embeds `FireDetectionSimulator.run_simulation`: if any sensor reads strictly above
50 degrees or strictly above 0.3 smoke, both alarms are set (the loop breaks
after the first such sensor, so the net effect is setting both alarms once);
otherwise the alarms are left unchanged. -/
def FireSim.run_simulation (f : FireSim) : FireSim :=
  if f.sensors.any (fun p => decide (p.2.temp > 50) || decide (p.2.smoke > 3/10))
  then { f with alarms := ⟨true, true⟩ }
  else f

/-- Embeds `FireDetectionSimulator.get_alarm_status`. -/
def FireSim.get_alarm_status (f : FireSim) : AlarmStatus := f.alarms

/-- The `fuel_valves` dict `{"main": str, "auxiliary": str}`. -/
structure FuelValves where
  main : String
  auxiliary : String
  deriving DecidableEq, Repr

/-- The `activation_points` dict `{"bridge": bool, "engine_room": bool}`. -/
structure ActivationPoints where
  bridge : Bool
  engine_room : Bool
  deriving DecidableEq, Repr

/-- The ESD `alarm_interface` dict `{"connected": bool, "signal_sent": bool}`. -/
structure EsdAlarmSignal where
  connected : Bool
  signal_sent : Bool
  deriving DecidableEq, Repr

/-- Embeds `EmergencyShutdownSimulator`. -/
structure EsdSim where
  fuel_valves : FuelValves
  activation_points : ActivationPoints
  alarm_interface : EsdAlarmSignal
  deriving DecidableEq, Repr

/-- Embeds `EmergencyShutdownSimulator.__init__`. -/
def EsdSim.init : EsdSim :=
  { fuel_valves := ⟨"open", "open"⟩,
    activation_points := ⟨false, false⟩,
    alarm_interface := ⟨true, false⟩ }

/-- Embeds `EmergencyShutdownSimulator.activate_shutdown(activation_point)`: for a
registered activation point, mark it activated, close both fuel valves, send
the alarm signal and return the elapsed wall-clock time (a nondeterministic
positive float, modelled by the parameter `elapsed`); otherwise return `None`
with no state change. -/
def EsdSim.activate_shutdown (e : EsdSim) (elapsed : ℚ)
    (activation_point : String) : Option ℚ × EsdSim :=
  if activation_point = "bridge" then
    (some elapsed,
     { e with activation_points := { e.activation_points with bridge := true },
              fuel_valves := ⟨"closed", "closed"⟩,
              alarm_interface := { e.alarm_interface with signal_sent := true } })
  else if activation_point = "engine_room" then
    (some elapsed,
     { e with
         activation_points := { e.activation_points with engine_room := true },
         fuel_valves := ⟨"closed", "closed"⟩,
         alarm_interface := { e.alarm_interface with signal_sent := true } })
  else (none, e)

/-- Embeds `EmergencyShutdownSimulator.get_valve_status`. -/
def EsdSim.get_valve_status (e : EsdSim) : FuelValves := e.fuel_valves

/-- One bilge compartment: `{"water_level": float, "alarm_threshold": float}`. -/
structure Compartment where
  water_level : ℚ
  alarm_threshold : ℚ
  deriving DecidableEq, Repr

/-- Embeds `BilgeAlarmSimulator`. -/
structure BilgeSim where
  compartments : List (String × Compartment)
  alarms : AlarmStatus
  power_status : String
  deriving DecidableEq, Repr

/-- Embeds `BilgeAlarmSimulator.__init__`: five compartments at level 0.0 with alarm
threshold 150.0. -/
def BilgeSim.init : BilgeSim :=
  { compartments := [("compartment_1", ⟨0, 150⟩), ("compartment_2", ⟨0, 150⟩),
                     ("compartment_3", ⟨0, 150⟩), ("compartment_4", ⟨0, 150⟩),
                     ("compartment_5", ⟨0, 150⟩)],
    alarms := ⟨false, false⟩,
    power_status := "normal" }

/-- Embeds `BilgeAlarmSimulator.set_water_level(compartment_id, level)`. -/
def BilgeSim.set_water_level (b : BilgeSim) (compartment_id : String)
    (level : ℚ) : Bool × BilgeSim :=
  match assocGet b.compartments compartment_id with
  | none => (false, b)
  | some _ =>
    (true, { b with compartments := (b.compartments.map
      (fun p => if p.1 = compartment_id then (p.1, { p.2 with water_level := level })
                else p)) })

/-- Embeds `BilgeAlarmSimulator.run_simulation`: if any compartment's water level is
at or above (`>=`, inclusive) its alarm threshold, both alarms are set;
otherwise the alarms are left unchanged. -/
def BilgeSim.run_simulation (b : BilgeSim) : BilgeSim :=
  if b.compartments.any (fun p => decide (p.2.water_level ≥ p.2.alarm_threshold))
  then { b with alarms := ⟨true, true⟩ }
  else b

/-- Embeds `BilgeAlarmSimulator.get_alarm_status`. -/
def BilgeSim.get_alarm_status (b : BilgeSim) : AlarmStatus := b.alarms

/-! ### The diagnostics runner (diagnostic_simulation.py) -/

/-- The result dict of `run_all_diagnostics`, initialised to all-`False` and
holding exactly one boolean per subsystem. -/
structure DiagResults where
  fire : Bool
  esd : Bool
  bilge : Bool
  deriving DecidableEq, Repr

/-- State of a `DiagnosticsSimulator`: the three subsystem instances and the
`last_run` timestamp (`None` until the first run; timestamps modelled as
`Nat`). -/
structure DiagState (α β γ : Type) where
  fire_system : α
  esd_system : β
  bilge_system : γ
  last_run : Option Nat
  deriving Repr

/-- Outcome of one `try` block of `run_all_diagnostics`: a normal run yields
the pass/fail boolean and the mutated subsystem; an exception (`.error`) is
caught by the `except` clause, leaving the result entry at its initial
`False` and keeping whatever partial subsystem state the probe produced. -/
def probeResult {σ ε : Type} : Except (ε × σ) (Bool × σ) → Bool × σ
  | .ok r => r
  | .error x => (false, x.2)

/-- Embeds `DiagnosticsSimulator.run_all_diagnostics`, parameterised by the three
probe computations (the bodies of its three `try` blocks, each touching only
its own subsystem and free to raise).  The three probes run in sequence, each
failure is confined to its own entry, and the `last_run` timestamp is recorded
at the end. -/
def runAllDiagnostics {α β γ ε : Type}
    (fireProbe : α → Except (ε × α) (Bool × α))
    (esdProbe : β → Except (ε × β) (Bool × β))
    (bilgeProbe : γ → Except (ε × γ) (Bool × γ))
    (now : Nat) (ds : DiagState α β γ) :
    DiagResults × DiagState α β γ :=
  let fr := probeResult (fireProbe ds.fire_system)
  let er := probeResult (esdProbe ds.esd_system)
  let br := probeResult (bilgeProbe ds.bilge_system)
  (⟨fr.1, er.1, br.1⟩, ⟨fr.2, er.2, br.2, some now⟩)

/-- Body of the fire `try` block of `run_all_diagnostics` against the mock
`FireDetectionSimulator` (all `hasattr` probes succeed): clear the alarms, set
sensor 1 to 60.0 degrees and 0.5 smoke, run the simulation, pass iff both
alarms triggered. -/
def fireDiag (f : FireSim) : Bool × FireSim :=
  let f1 := { f with alarms := ⟨false, false⟩ }
  let f2 := (f1.set_sensor_value "sensor_1" "temp" 60).2
  let f3 := (f2.set_sensor_value "sensor_1" "smoke" (1/2)).2
  let f4 := f3.run_simulation
  let status := f4.get_alarm_status
  (status.visual && status.audible, f4)

/-- Body of the ESD `try` block of `run_all_diagnostics` against the mock
`EmergencyShutdownSimulator`: reopen the valves, clear the signal flag,
activate shutdown from the bridge, pass iff the activation returned a non-null
time, all valves are closed and the signal flag is set. -/
def esdDiag (elapsed : ℚ) (e : EsdSim) : Bool × EsdSim :=
  let e1 := { e with fuel_valves := ⟨"open", "open"⟩ }
  let e2 := { e1 with alarm_interface := { e1.alarm_interface with signal_sent := false } }
  let res := e2.activate_shutdown elapsed "bridge"
  let e3 := res.2
  let valve_status := e3.get_valve_status
  let valves_closed := decide (valve_status.main = "closed") &&
    decide (valve_status.auxiliary = "closed")
  let signal := e3.alarm_interface.signal_sent
  (res.1.isSome && valves_closed && signal, e3)

/-- Body of the bilge `try` block of `run_all_diagnostics` against the mock
`BilgeAlarmSimulator`: clear the alarms, take the first compartment (if any),
raise its level to threshold + 1.0, run the simulation, pass iff both alarms
triggered; with no compartments the probe reports `False`. -/
def bilgeDiag (b : BilgeSim) : Bool × BilgeSim :=
  let b1 := { b with alarms := ⟨false, false⟩ }
  match b1.compartments.head? with
  | none => (false, b1)
  | some (comp_id, comp) =>
    let threshold := comp.alarm_threshold
    let b2 := (b1.set_water_level comp_id (threshold + 1)).2
    let b3 := b2.run_simulation
    let status := b3.get_alarm_status
    (status.visual && status.audible, b3)

/-- Embeds `run_all_diagnostics` instantiated with the three mock simulators; none of
their probe bodies raises. -/
def runAllDiagnosticsMock (elapsed : ℚ) (now : Nat)
    (ds : DiagState FireSim EsdSim BilgeSim) :
    DiagResults × DiagState FireSim EsdSim BilgeSim :=
  runAllDiagnostics
    (fun f => (Except.ok (fireDiag f) : Except (Unit × FireSim) (Bool × FireSim)))
    (fun e => (Except.ok (esdDiag elapsed e) : Except (Unit × EsdSim) (Bool × EsdSim)))
    (fun b => (Except.ok (bilgeDiag b) : Except (Unit × BilgeSim) (Bool × BilgeSim)))
    now ds

theorem and_true_split {a b : Bool} (h : (a && b) = true) :
    a = true ∧ b = true := by
  simp only [Bool.and_eq_true] at h
  exact h

/-! ### Sample states used by witnesses -/

/-- A subsystem reporting an active visual alarm via `get_alarm_status`. -/
def activeSub : Subsystem := ⟨some ⟨true, false⟩, none⟩

/-- A subsystem exposing neither `get_alarm_status` nor `alarm_interface`. -/
def bareSub : Subsystem := ⟨none, none⟩

/-- An interface over an alarming fire subsystem and a capability-less one. -/
def sampleState : CAIState := CAIState.init [("fire", activeSub), ("esd", bareSub)]

/-- An interface whose alarming fire subsystem is in maintenance mode. -/
def suppressedState : CAIState := ⟨[("fire", activeSub)], [("fire", true)]⟩

/-! ### Claims about the central alarm interface -/

/-- C1: `check_alarms` processes the registered subsystems in registration
order; the triggered list collects exactly the active subsystems with
maintenance off, the suppressed list exactly the active subsystems with
maintenance on, the overall alarm holds exactly when some active subsystem has
maintenance off (suppressed subsystems never influence it), inactive
subsystems appear in neither list; and `alarm_active` comes from
`get_alarm_status` (visual OR audible) when that capability exists, otherwise
from the `alarm_interface` signal-sent flag. -/
theorem check_alarms_characterization (st : CAIState) :
    (checkAlarms st).triggered_systems =
      (st.systems.filter
        (fun p => alarmActive p.2 && !maintGet st.maintenance_mode p.1)).map Prod.fst ∧
    (checkAlarms st).suppressed_alarms =
      (st.systems.filter
        (fun p => alarmActive p.2 && maintGet st.maintenance_mode p.1)).map Prod.fst ∧
    (checkAlarms st).overall_alarm =
      st.systems.any (fun p => alarmActive p.2 && !maintGet st.maintenance_mode p.1) ∧
    (∀ (status : AlarmStatus) (ai : Option Bool),
      alarmActive ⟨some status, ai⟩ = (status.visual || status.audible)) ∧
    (∀ signal : Bool, alarmActive ⟨none, some signal⟩ = signal) ∧
    alarmActive ⟨none, none⟩ = false :=
  ⟨checkAlarmsList_triggered _ _, checkAlarmsList_suppressed _ _,
   checkAlarmsList_overall _ _, fun _ _ => rfl, fun _ => rfl, rfl⟩

/-- C2: per `check_alarms` call, a registered name appears in at most one of
the triggered/suppressed lists, and only if its alarm condition is active at
the time of the call. -/
theorem check_alarms_exclusive (st : CAIState)
    (hnd : (st.systems.map Prod.fst).Nodup) (name : String) :
    ¬(name ∈ (checkAlarms st).triggered_systems ∧
      name ∈ (checkAlarms st).suppressed_alarms) ∧
    ((name ∈ (checkAlarms st).triggered_systems ∨
      name ∈ (checkAlarms st).suppressed_alarms) →
      ∃ s : Subsystem, (name, s) ∈ st.systems ∧ alarmActive s = true) := by
  constructor
  · rintro ⟨ht, hs⟩
    rw [checkAlarms, checkAlarmsList_triggered] at ht
    rw [checkAlarms, checkAlarmsList_suppressed] at hs
    rcases mem_map_fst_filter.mp ht with ⟨s1, hm1, hp1⟩
    rcases mem_map_fst_filter.mp hs with ⟨s2, hm2, hp2⟩
    cases entry_unique hnd hm1 hm2
    rcases and_true_split hp1 with ⟨-, hmoff⟩
    rcases and_true_split hp2 with ⟨-, hmon⟩
    rw [hmon] at hmoff
    exact Bool.false_ne_true (by simpa using hmoff.symm)
  · intro h
    rcases h with ht | hs
    · rw [checkAlarms, checkAlarmsList_triggered] at ht
      rcases mem_map_fst_filter.mp ht with ⟨s, hm, hp⟩
      exact ⟨s, hm, (and_true_split hp).1⟩
    · rw [checkAlarms, checkAlarmsList_suppressed] at hs
      rcases mem_map_fst_filter.mp hs with ⟨s, hm, hp⟩
      exact ⟨s, hm, (and_true_split hp).1⟩

/-- Witness for C2 at a concrete two-subsystem interface. -/
theorem check_alarms_exclusive_w :
    ¬("fire" ∈ (checkAlarms sampleState).triggered_systems ∧
      "fire" ∈ (checkAlarms sampleState).suppressed_alarms) ∧
    (("fire" ∈ (checkAlarms sampleState).triggered_systems ∨
      "fire" ∈ (checkAlarms sampleState).suppressed_alarms) →
      ∃ s : Subsystem, ("fire", s) ∈ sampleState.systems ∧ alarmActive s = true) :=
  check_alarms_exclusive sampleState (by decide) "fire"

/-- C3: `set_maintenance_mode` on an unregistered name returns the failure
indicator `False` with the state (all flags, all subsystems) unchanged; on a
registered name it returns `True`, sets exactly that flag to the requested
mode, and leaves the subsystems and every other flag unchanged. -/
theorem set_maintenance_mode_spec (st : CAIState) (name : String) (mode : Bool) :
    (assocGet st.maintenance_mode name = none →
      setMaintenanceMode st name mode = (false, st)) ∧
    ((assocGet st.maintenance_mode name).isSome →
      (setMaintenanceMode st name mode).1 = true ∧
      (setMaintenanceMode st name mode).2.systems = st.systems ∧
      assocGet (setMaintenanceMode st name mode).2.maintenance_mode name =
        some mode ∧
      (∀ k, k ≠ name →
        assocGet (setMaintenanceMode st name mode).2.maintenance_mode k =
          assocGet st.maintenance_mode k)) := by
  constructor
  · intro h
    simp [setMaintenanceMode, h]
  · intro h
    refine ⟨?_, ?_, ?_, ?_⟩
    · simp [setMaintenanceMode, h]
    · simp [setMaintenanceMode, h]
    · simp only [setMaintenanceMode, if_pos h]
      exact assocGet_assocSet_self h mode
    · intro k hk
      simp only [setMaintenanceMode, if_pos h]
      exact assocGet_assocSet_other st.maintenance_mode name k mode hk

/-- Witness for C3: an unregistered name fails with no change; a registered
name succeeds, updates its own flag and leaves the other flag alone. -/
theorem set_maintenance_mode_spec_w :
    setMaintenanceMode sampleState "bilge" true = (false, sampleState) ∧
    (setMaintenanceMode sampleState "fire" true).1 = true ∧
    (setMaintenanceMode sampleState "fire" true).2.systems =
      sampleState.systems ∧
    assocGet (setMaintenanceMode sampleState "fire" true).2.maintenance_mode
      "fire" = some true ∧
    assocGet (setMaintenanceMode sampleState "fire" true).2.maintenance_mode
      "esd" = assocGet sampleState.maintenance_mode "esd" :=
  ⟨(set_maintenance_mode_spec sampleState "bilge" true).1 (by decide),
   ((set_maintenance_mode_spec sampleState "fire" true).2 (by decide)).1,
   ((set_maintenance_mode_spec sampleState "fire" true).2 (by decide)).2.1,
   ((set_maintenance_mode_spec sampleState "fire" true).2 (by decide)).2.2.1,
   ((set_maintenance_mode_spec sampleState "fire" true).2 (by decide)).2.2.2
     "esd" (by decide)⟩

/-- C4: `check_alarms` mutates neither the subsystems nor the maintenance
flags (every statement of its body is a read, so the embedded operation
returns the state unchanged), its result is exactly the fresh recomputation
`checkAlarms`, and two consecutive calls with unchanged subsystem state return
equal results. -/
theorem check_alarms_no_mutation (st : CAIState) :
    (checkAlarmsOp st).2 = st ∧
    (checkAlarmsOp st).1 = checkAlarms st ∧
    (checkAlarmsOp ((checkAlarmsOp st).2)).1 = (checkAlarmsOp st).1 :=
  ⟨rfl, rfl, rfl⟩

/-- C5: a subsystem with an active alarm that is currently suppressed moves to
the triggered list of the very next `check_alarms` after
`set_maintenance_mode(name, False)`, with no other state change: it leaves the
suppressed list and the overall alarm turns on (suppression is evaluated per
check, not latched). -/
theorem maintenance_off_moves_to_triggered (st : CAIState) (name : String)
    (s : Subsystem) (hmem : (name, s) ∈ st.systems)
    (hact : alarmActive s = true)
    (hsup : maintGet st.maintenance_mode name = true) :
    name ∈ (checkAlarms (setMaintenanceMode st name false).2).triggered_systems ∧
    name ∉ (checkAlarms (setMaintenanceMode st name false).2).suppressed_alarms ∧
    (checkAlarms (setMaintenanceMode st name false).2).overall_alarm = true := by
  have hkey : (assocGet st.maintenance_mode name).isSome := by
    rcases h : assocGet st.maintenance_mode name with - | b
    · rw [maintGet, h] at hsup
      exact absurd hsup (by simp)
    · rfl
  have hstate : (setMaintenanceMode st name false).2 =
      ⟨st.systems, assocSet st.maintenance_mode name false⟩ := by
    simp [setMaintenanceMode, hkey]
  have hoff : maintGet (assocSet st.maintenance_mode name false) name = false := by
    rw [maintGet, assocGet_assocSet_self hkey false]
    rfl
  rw [hstate]
  refine ⟨?_, ?_, ?_⟩
  · rw [checkAlarms, checkAlarmsList_triggered]
    exact mem_map_fst_filter.mpr ⟨s, hmem, by simp [hact, hoff]⟩
  · intro hmem2
    rw [checkAlarms, checkAlarmsList_suppressed] at hmem2
    rcases mem_map_fst_filter.mp hmem2 with ⟨s2, -, hp2⟩
    rcases and_true_split hp2 with ⟨-, hmon⟩
    rw [hoff] at hmon
    exact Bool.false_ne_true hmon
  · rw [checkAlarms, checkAlarmsList_overall]
    exact List.any_eq_true.mpr ⟨(name, s), hmem, by simp [hact, hoff]⟩

/-- Witness for C5 at a concrete interface whose alarming subsystem starts out
suppressed. -/
theorem maintenance_off_moves_to_triggered_w :
    "fire" ∈ (checkAlarms
      (setMaintenanceMode suppressedState "fire" false).2).triggered_systems ∧
    "fire" ∉ (checkAlarms
      (setMaintenanceMode suppressedState "fire" false).2).suppressed_alarms ∧
    (checkAlarms
      (setMaintenanceMode suppressedState "fire" false).2).overall_alarm = true :=
  maintenance_off_moves_to_triggered suppressedState "fire" activeSub
    (by simp [suppressedState]) rfl rfl

/-- C6: a registered subsystem lacking both `get_alarm_status` and
`alarm_interface` is treated as alarm-inactive rather than as an error: it
appears in neither list and the overall alarm equals the aggregation over the
remaining subsystems alone. -/
theorem missing_capability_inactive (st : CAIState) (name : String)
    (s : Subsystem) (hmem : (name, s) ∈ st.systems)
    (hgs : s.get_alarm_status = none) (hai : s.alarm_interface = none)
    (hnd : (st.systems.map Prod.fst).Nodup) :
    alarmActive s = false ∧
    name ∉ (checkAlarms st).triggered_systems ∧
    name ∉ (checkAlarms st).suppressed_alarms ∧
    (checkAlarms st).overall_alarm =
      (st.systems.filter (fun p => !(decide (p.1 = name)))).any
        (fun p => alarmActive p.2 && !maintGet st.maintenance_mode p.1) := by
  have hinactive : alarmActive s = false := by
    rw [alarmActive, hgs, hai]
  refine ⟨hinactive, ?_, ?_, ?_⟩
  · intro hmem2
    rw [checkAlarms, checkAlarmsList_triggered] at hmem2
    rcases mem_map_fst_filter.mp hmem2 with ⟨s2, hm2, hp2⟩
    cases entry_unique hnd hm2 hmem
    rcases and_true_split hp2 with ⟨hact, -⟩
    rw [hinactive] at hact
    exact Bool.false_ne_true hact
  · intro hmem2
    rw [checkAlarms, checkAlarmsList_suppressed] at hmem2
    rcases mem_map_fst_filter.mp hmem2 with ⟨s2, hm2, hp2⟩
    cases entry_unique hnd hm2 hmem
    rcases and_true_split hp2 with ⟨hact, -⟩
    rw [hinactive] at hact
    exact Bool.false_ne_true hact
  · rw [checkAlarms, checkAlarmsList_overall]
    rw [Bool.eq_iff_iff, List.any_eq_true, List.any_eq_true]
    constructor
    · rintro ⟨p, hp, hact⟩
      refine ⟨p, List.mem_filter.mpr ⟨hp, ?_⟩, hact⟩
      by_cases hname : p.1 = name
      · exfalso
        have hps : p = (name, s) := by
          have : p = (p.1, p.2) := rfl
          rw [this, hname]
          have hmemp : (name, p.2) ∈ st.systems := by
            rw [← hname]
            exact this ▸ hp
          rw [entry_unique hnd hmemp hmem]
        rw [hps] at hact
        rcases and_true_split hact with ⟨ha, -⟩
        rw [hinactive] at ha
        exact Bool.false_ne_true ha
      · simp [hname]
    · rintro ⟨p, hp, hact⟩
      exact ⟨p, (List.mem_filter.mp hp).1, hact⟩

/-- Witness for C6: the capability-less `"esd"` subsystem of the sample
interface is inactive and invisible to the aggregation. -/
theorem missing_capability_inactive_w :
    alarmActive bareSub = false ∧
    "esd" ∉ (checkAlarms sampleState).triggered_systems ∧
    "esd" ∉ (checkAlarms sampleState).suppressed_alarms ∧
    (checkAlarms sampleState).overall_alarm =
      (sampleState.systems.filter (fun p => !(decide (p.1 = "esd")))).any
        (fun p => alarmActive p.2 && !maintGet sampleState.maintenance_mode p.1) :=
  missing_capability_inactive sampleState "esd" bareSub (by simp [sampleState, CAIState.init])
    rfl rfl (by decide)

/-- C10: when both capabilities are present, `alarm_active` is determined
solely by `get_alarm_status` (the same for every value of the signal-sent
flag, which is consulted only when `get_alarm_status` is absent); in
particular a set signal-sent flag never makes such a subsystem active while
both of its alarms are `False`. -/
theorem get_alarm_status_precedence (status : AlarmStatus) (signal : Bool) :
    alarmActive ⟨some status, some signal⟩ = (status.visual || status.audible) ∧
    (∀ ai ai2 : Option Bool,
      alarmActive ⟨some status, ai⟩ = alarmActive ⟨some status, ai2⟩) ∧
    alarmActive ⟨none, some signal⟩ = signal ∧
    (status.visual = false → status.audible = false →
      alarmActive ⟨some status, some signal⟩ = false) := by
  refine ⟨rfl, fun _ _ => rfl, rfl, fun h1 h2 => ?_⟩
  rw [alarmActive]
  simp [h1, h2]

/-- Witness for C10: a subsystem whose `get_alarm_status` reports both alarms
off stays inactive even though its signal-sent flag is set. -/
theorem get_alarm_status_precedence_w :
    alarmActive ⟨some ⟨false, false⟩, some true⟩ = false ∧
    alarmActive ⟨none, some true⟩ = true :=
  ⟨(get_alarm_status_precedence ⟨false, false⟩ true).2.2.2 rfl rfl,
   (get_alarm_status_precedence ⟨false, false⟩ true).2.2.1⟩

/-! ### Claims about the diagnostics runner -/

/-- A diagnostic probe that raises an exception. -/
def failProbe : Unit → Except (Unit × Unit) (Bool × Unit) :=
  fun _ => Except.error ((), ())

/-- A diagnostic probe that completes and passes. -/
def passProbe : Unit → Except (Unit × Unit) (Bool × Unit) :=
  fun _ => Except.ok (true, ())

/-- C7: an exception in one subsystem probe of `run_all_diagnostics` is caught
and recorded as a `False` entry for that subsystem only; each subsystem's
entry is computed from its own probe regardless of the other probes' failures
(so the other diagnostics still execute), the exception is never propagated
(the embedded runner is a total function), the result always has one boolean
entry for each of fire, ESD and bilge, and the `last_run` timestamp is
recorded. -/
theorem run_all_diagnostics_isolation {α β γ ε : Type}
    (fireProbe : α → Except (ε × α) (Bool × α))
    (esdProbe : β → Except (ε × β) (Bool × β))
    (bilgeProbe : γ → Except (ε × γ) (Bool × γ))
    (now : Nat) (ds : DiagState α β γ) :
    ((∃ x, fireProbe ds.fire_system = Except.error x) →
      (runAllDiagnostics fireProbe esdProbe bilgeProbe now ds).1.fire = false) ∧
    ((∃ x, esdProbe ds.esd_system = Except.error x) →
      (runAllDiagnostics fireProbe esdProbe bilgeProbe now ds).1.esd = false) ∧
    ((∃ x, bilgeProbe ds.bilge_system = Except.error x) →
      (runAllDiagnostics fireProbe esdProbe bilgeProbe now ds).1.bilge = false) ∧
    (runAllDiagnostics fireProbe esdProbe bilgeProbe now ds).1.fire =
      (probeResult (fireProbe ds.fire_system)).1 ∧
    (runAllDiagnostics fireProbe esdProbe bilgeProbe now ds).1.esd =
      (probeResult (esdProbe ds.esd_system)).1 ∧
    (runAllDiagnostics fireProbe esdProbe bilgeProbe now ds).1.bilge =
      (probeResult (bilgeProbe ds.bilge_system)).1 ∧
    (runAllDiagnostics fireProbe esdProbe bilgeProbe now ds).2.last_run =
      some now := by
  refine ⟨?_, ?_, ?_, rfl, rfl, rfl, rfl⟩
  · rintro ⟨x, hx⟩
    simp [runAllDiagnostics, probeResult, hx]
  · rintro ⟨x, hx⟩
    simp [runAllDiagnostics, probeResult, hx]
  · rintro ⟨x, hx⟩
    simp [runAllDiagnostics, probeResult, hx]

/-- Witness for C7: a failing fire probe yields a `False` fire entry while the
ESD and bilge probes still run and the timestamp is recorded. -/
theorem run_all_diagnostics_isolation_w :
    (runAllDiagnostics failProbe passProbe passProbe 7
      ⟨(), (), (), none⟩).1.fire = false ∧
    (runAllDiagnostics failProbe passProbe passProbe 7
      ⟨(), (), (), none⟩).1.esd = (probeResult (passProbe ())).1 ∧
    (runAllDiagnostics failProbe passProbe passProbe 7
      ⟨(), (), (), none⟩).1.bilge = (probeResult (passProbe ())).1 ∧
    (runAllDiagnostics failProbe passProbe passProbe 7
      ⟨(), (), (), none⟩).2.last_run = some 7 :=
  ⟨(run_all_diagnostics_isolation failProbe passProbe passProbe 7
      ⟨(), (), (), none⟩).1 ⟨((), ()), rfl⟩,
   (run_all_diagnostics_isolation failProbe passProbe passProbe 7
      ⟨(), (), (), none⟩).2.2.2.2.1,
   (run_all_diagnostics_isolation failProbe passProbe passProbe 7
      ⟨(), (), (), none⟩).2.2.2.2.2.1,
   (run_all_diagnostics_isolation failProbe passProbe passProbe 7
      ⟨(), (), (), none⟩).2.2.2.2.2.2⟩

/-- C8: with the three mock subsystems in their nominal initial state (fire
sensors at 25.0/0.0 against the strict 50-degree / 0.3-smoke thresholds, ESD
valves open with the bridge activation point registered, bilge compartments at
0.0 against the 150.0 threshold), `run_all_diagnostics` passes all three
subsystems, for every measured shutdown elapsed time and every clock value. -/
theorem run_all_diagnostics_nominal_pass (elapsed : ℚ) (now : Nat) :
    (runAllDiagnosticsMock elapsed now
      ⟨FireSim.init, EsdSim.init, BilgeSim.init, none⟩).1 =
      ⟨true, true, true⟩ := by
  with_unfolding_all rfl

/-- A bilge simulator whose only compartment sits exactly at its 150.0 alarm
threshold. -/
def boundaryBilge : BilgeSim :=
  { compartments := [("compartment_1", ⟨150, 150⟩)],
    alarms := ⟨false, false⟩,
    power_status := "normal" }

/-- C9: a compartment whose water level equals its alarm threshold activates
both alarms on `run_simulation` (the comparison is inclusive, `>=`), and the
boundary behaviour is deterministic: running the simulation again on the
resulting state reproduces exactly the same state, hence the same alarm
outcome. -/
theorem bilge_threshold_inclusive (b : BilgeSim) (cid : String)
    (c : Compartment) (hmem : (cid, c) ∈ b.compartments)
    (hlev : c.water_level = c.alarm_threshold) :
    (b.run_simulation).alarms = ⟨true, true⟩ ∧
    (b.run_simulation).run_simulation = b.run_simulation := by
  have hc : b.compartments.any
      (fun p => decide (p.2.water_level ≥ p.2.alarm_threshold)) = true :=
    List.any_eq_true.mpr ⟨(cid, c), hmem, by simp [hlev]⟩
  constructor
  · simp [BilgeSim.run_simulation, hc]
  · simp [BilgeSim.run_simulation, hc]

/-- Witness for C9 at the boundary simulator: level exactly 150.0 against
threshold 150.0 raises both alarms, stably across a repeated run. -/
theorem bilge_threshold_inclusive_w :
    (boundaryBilge.run_simulation).alarms = ⟨true, true⟩ ∧
    (boundaryBilge.run_simulation).run_simulation =
      boundaryBilge.run_simulation :=
  bilge_threshold_inclusive boundaryBilge "compartment_1" ⟨150, 150⟩
    (List.mem_singleton.mpr rfl) rfl

end Maritime
